import Mathlib

/-!
Verification of the class-feedback dashboard (Angular component `AppComponent`,
services `DataService` and `GeminiService`) against its natural-language
specification.

Shallow embedding conventions:
* A spreadsheet row (`TicketData` in `models/ticket-data.model.ts`) becomes a
  Lean structure.  The dynamic question columns become explicit fields, one per
  fixed header used by the component; a missing column value (JS `undefined`)
  is `none`.
* JS `Date` values are epoch milliseconds (`Int`); an invalid date is `none`
  (comparisons against an invalid date are false in JS, matching the `none`
  branches below).  Date-string parsing (`new Date(s)`) and the local-time
  `setHours(23,59,59,999)` adjustment are abstracted as function parameters,
  since no analysed behaviour depends on the calendar itself.
* The component's signals become fields of an `AppState` structure; methods
  become `AppState → AppState` functions.  A method that may issue a request to
  the external generation service additionally returns `Option GeminiCall`
  describing the request it issued (`none` = the service was not invoked).
* `parseInt` (radix 10) and string truthiness are modelled explicitly.
-/

/-- One imported spreadsheet row (`TicketData`).  The seven survey-question
columns keyed by their Spanish header text in the source become named fields:
`learning` ↦ `learningIndex`, `confused` ↦ `confusedIndex`, `question` ↦
`questionIndex`, `comprehension` ↦ `comprehensionIndex`, `suggestion` ↦
`suggestionIndex`, `engagement` ↦ `engagementIndex`, `score` ↦ `scoreIndex`,
and `emailAddress` ↦ the `Email Address` column. -/
structure TicketData where
  Timestamp : Option Int
  emailAddress : Option String
  Materia : String
  Paralelo : String
  learning : Option String
  confused : Option String
  question : Option String
  comprehension : Option String
  suggestion : Option String
  engagement : Option String
  score : Option String
deriving DecidableEq

/-- State of one AI summary signal: `{ loading: boolean, content: string | null }`. -/
structure SummaryState where
  loading : Bool
  content : Option String
deriving DecidableEq

/-- The component state: every signal of `AppComponent` that participates in the
analysed logic. -/
structure AppState where
  sheetUrl : String
  isLoading : Bool
  errorMessage : Option String
  dataLoaded : Bool
  startDate : String
  endDate : String
  selectedMateria : String
  selectedParalelo : String
  appliedStartDate : String
  appliedEndDate : String
  appliedSelectedMateria : String
  appliedSelectedParalelo : String
  allData : List TicketData
  learnings : SummaryState
  confused : SummaryState
  questions : SummaryState
  suggestions : SummaryState
  lessonPlan : SummaryState
  studentGuide : SummaryState
  isPriorityListVisible : Bool
  isRawDataVisible : Bool
  isModalVisible : Bool
  modalNextTopic : String
  modalNumStudents : String
  modalClassDuration : String
  modalMateriaOutcome : String
  modalUnitOutcome : String
  modalClassProduct : String
  modalErrorMessage : Option String
deriving DecidableEq

/-- JS `String.prototype.trim()`: strip whitespace from both ends. -/
def trimJS (s : String) : String :=
  ⟨((s.data.dropWhile Char.isWhitespace).reverse.dropWhile Char.isWhitespace).reverse⟩

/-- JS `String.prototype.toLowerCase()` (ASCII case mapping suffices for the
tokens this program compares). -/
def toLowerJS (s : String) : String := ⟨s.data.map Char.toLower⟩

/-- JS `String.prototype.toUpperCase()` (ASCII case mapping). -/
def toUpperJS (s : String) : String := ⟨s.data.map Char.toUpper⟩

/-- Numeric value of a decimal digit character. -/
def digitVal (c : Char) : Nat := c.toNat - 48

/-- Value of a list of decimal digit characters. -/
def digitsVal (ds : List Char) : Nat :=
  ds.foldl (fun a c => a * 10 + digitVal c) 0

/-- JS `parseInt(s)` (radix 10): skip leading whitespace, optional sign, read a
non-empty maximal run of decimal digits; `NaN` (here `none`) otherwise. -/
def parseIntJS (s : String) : Option Int :=
  let cs := s.data.dropWhile Char.isWhitespace
  match cs with
  | '-' :: rest =>
      let ds := rest.takeWhile Char.isDigit
      if ds.isEmpty then none else some (-(digitsVal ds : Int))
  | '+' :: rest =>
      let ds := rest.takeWhile Char.isDigit
      if ds.isEmpty then none else some (digitsVal ds : Int)
  | _ =>
      let ds := cs.takeWhile Char.isDigit
      if ds.isEmpty then none else some (digitsVal ds : Int)

/-- `filteredData` (app.component.ts, lines 60–80): narrow `allData` by the four
applied bounds.  `parseDate` models `new Date(dateString).getTime()` (`none` for
an invalid date); `endOfDay` models `setHours(23, 59, 59, 999)` applied to a
parsed end date.  A comparison involving an invalid date is false in JS, hence
the `none` match arms. -/
def filteredData (parseDate : String → Option Int) (endOfDay : Int → Int)
    (s : AppState) : List TicketData :=
  let data := s.allData
  if data.isEmpty then [] else
  data.filter (fun row =>
    let isAfterStartDate : Bool := (s.appliedStartDate == "") ||
      (match row.Timestamp, parseDate s.appliedStartDate with
       | some t, some sd => decide (sd ≤ t)
       | _, _ => false)
    let isBeforeEndDate : Bool := (s.appliedEndDate == "") ||
      (match row.Timestamp, parseDate s.appliedEndDate with
       | some t, some ed => decide (t ≤ endOfDay ed)
       | _, _ => false)
    let isCorrectMateria : Bool := (s.appliedSelectedMateria == "") ||
      (row.Materia == s.appliedSelectedMateria)
    let isCorrectParalelo : Bool := (s.appliedSelectedParalelo == "") ||
      (row.Paralelo == s.appliedSelectedParalelo)
    isAfterStartDate && isBeforeEndDate && isCorrectMateria && isCorrectParalelo)

/-- `applyFilters` (app.component.ts, lines 192–201) together with the two
private helpers `resetAISummaries` and `resetLessonPlan` it calls: copy the
pending selection into the applied selection and reset the six report signals
to `{ content: null, loading: false }`. -/
def applyFilters (s : AppState) : AppState :=
  { s with
    appliedStartDate := s.startDate
    appliedEndDate := s.endDate
    appliedSelectedMateria := s.selectedMateria
    appliedSelectedParalelo := s.selectedParalelo
    learnings := { loading := false, content := none }
    confused := { loading := false, content := none }
    questions := { loading := false, content := none }
    suggestions := { loading := false, content := none }
    lessonPlan := { loading := false, content := none }
    studentGuide := { loading := false, content := none } }

/-- A record with every optional field absent, used to build concrete test rows. -/
def baseTicket : TicketData :=
  { Timestamp := none, emailAddress := none, Materia := "Matemática", Paralelo := "A"
    learning := none, confused := none, question := none, comprehension := none
    suggestion := none, engagement := none, score := none }

/-- An `AppState` with everything empty/idle, used to build concrete test states. -/
def baseState : AppState :=
  { sheetUrl := "", isLoading := false, errorMessage := none, dataLoaded := false
    startDate := "", endDate := "", selectedMateria := "", selectedParalelo := ""
    appliedStartDate := "", appliedEndDate := "", appliedSelectedMateria := ""
    appliedSelectedParalelo := "", allData := []
    learnings := { loading := false, content := none }
    confused := { loading := false, content := none }
    questions := { loading := false, content := none }
    suggestions := { loading := false, content := none }
    lessonPlan := { loading := false, content := none }
    studentGuide := { loading := false, content := none }
    isPriorityListVisible := false, isRawDataVisible := false, isModalVisible := false
    modalNextTopic := "", modalNumStudents := "", modalClassDuration := ""
    modalMateriaOutcome := "", modalUnitOutcome := "", modalClassProduct := ""
    modalErrorMessage := none }

/-- The `scoreIndex` column value of a row, parsed as in
`parseInt(d[this.dataService.scoreIndex])` (a missing column gives `NaN`,
here `none`). -/
def parsedScore (d : TicketData) : Option Int :=
  d.score.bind parseIntJS

/-- The score list of `averageScore` (app.component.ts, lines 84–89):
`filteredData().map(d => parseInt(d[scoreIndex])).filter(s => !isNaN(s) && s >= 1 && s <= 10)`.
`NaN` entries are the `none`s of the mapped list; the filter keeps the parsed
values lying in `[1, 10]`. -/
def includedScores (data : List TicketData) : List Int :=
  (data.map parsedScore).filterMap (fun o =>
    match o with
    | some n => if 1 ≤ n ∧ n ≤ 10 then some n else none
    | none => none)

/-- The exact mean of the included scores (`scores.reduce((a,b) => a+b, 0) / scores.length`),
as a rational; `none` when no score qualifies (the `'N/A'` branch). -/
def averageScoreQ (data : List TicketData) : Option ℚ :=
  let scores := includedScores data
  if scores.isEmpty then none
  else some ((scores.sum : ℚ) / (scores.length : ℚ))

/-- JS `Number.prototype.toFixed(2)` on an exact rational: round to the nearest
centi-unit (ties away from the integer grid are immaterial for the values this
program produces) and print with two decimals. -/
def toFixed2 (q : ℚ) : String :=
  let c : Int := round (q * 100)
  let sign := if c < 0 then "-" else ""
  let a := c.natAbs
  sign ++ toString (a / 100) ++ "." ++
    (if a % 100 < 10 then "0" else "") ++ toString (a % 100)

/-- `averageScore` (app.component.ts, lines 84–89): the displayed string. -/
def averageScore (data : List TicketData) : String :=
  match averageScoreQ data with
  | none => "N/A"
  | some q => toFixed2 q

/-- The `comprehensionMap` lookup table of `averageComprehension`
(app.component.ts, lines 91–95). -/
def comprehensionMap (s : String) : Option Nat :=
  if s == "¡Entendido! - Lo domino y podría explicarlo." then some 3
  else if s == "Más o menos. - Entendí la idea general, pero tengo dudas." then some 2
  else if s == "No entendí casi nada. - Me siento bastante perdido/a." then some 1
  else none

/-- The weight list of `averageComprehension` (app.component.ts, lines 96–98):
`filteredData().map(d => comprehensionMap[d[comprehensionIndex]?.trim()]).filter(Boolean)`.
An absent column or an unmapped answer yields `undefined`, removed by
`filter(Boolean)`; the mapped weights 1–3 are all truthy. -/
def comprehensionWeights (data : List TicketData) : List Nat :=
  data.filterMap (fun d => (d.comprehension.map trimJS).bind comprehensionMap)

/-- `averageComprehension` (app.component.ts, lines 90–106). -/
def averageComprehension (data : List TicketData) : String :=
  let scores := comprehensionWeights data
  if scores.isEmpty then "N/A"
  else
    let avg : ℚ := (scores.sum : ℚ) / (scores.length : ℚ)
    if 27/10 ≤ avg then "¡Excelente Comprensión!"
    else if 2 ≤ avg then "Buena (Pocas Dudas)"
    else if 1 ≤ avg then "Media (Necesita Revisión)"
    else "Baja (Refuerzo Urgente)"

/-- A row carrying only a satisfaction-score answer. -/
def mkScoreRow (v : String) : TicketData := { baseTicket with score := some v }

/-- A row carrying only a comprehension answer. -/
def mkCompRow (v : String) : TicketData := { baseTicket with comprehension := some v }

/-- The raw score column values `[0, 1, 10, 11, 7]` from the specification's
mean-score example. -/
def scoreExample : List TicketData := ["0", "1", "10", "11", "7"].map mkScoreRow

/-- The comprehension answer weighted 3 ("high"). -/
def highCompAnswer : String := "¡Entendido! - Lo domino y podría explicarlo."

/-- The comprehension answer weighted 2 ("medium"). -/
def medCompAnswer : String := "Más o menos. - Entendí la idea general, pero tengo dudas."

/-- The comprehension answer weighted 1 ("low"). -/
def lowCompAnswer : String := "No entendí casi nada. - Me siento bastante perdido/a."

/-- Rows whose comprehension weights are `[3, 3, 2]` (average 8/3). -/
def compExampleGood : List TicketData :=
  [highCompAnswer, highCompAnswer, medCompAnswer].map mkCompRow

/-- Rows whose comprehension weights average exactly 27/10. -/
def compExample27 : List TicketData :=
  (List.replicate 7 highCompAnswer ++ List.replicate 3 medCompAnswer).map mkCompRow

/-- A row whose comprehension weight is exactly 2. -/
def compExample20 : List TicketData := [medCompAnswer].map mkCompRow

/-- A row whose comprehension weight is exactly 1. -/
def compExample10 : List TicketData := [lowCompAnswer].map mkCompRow

/-- A single apostrophe, used where the source prompt strings quote words. -/
def apostr : String := String.singleton (Char.ofNat 39)

/-- Column headers from the original form (`DataService`, gemini.service.ts). -/
def learningIndex : String :=
  "¿Cuál es el aprendizaje más importante que te llevas de la clase de hoy?"

/-- Header of the confusion question column. -/
def confusedIndex : String :=
  "¿Qué punto de la clase te resultó más confuso o te dejó con dudas?"

/-- Header of the pending-questions column. -/
def questionIndex : String :=
  "¿Tienes alguna pregunta que te gustaría que sea respondida la siguiente clase?"

/-- Header of the comprehension-level column (trailing spaces as in the source). -/
def comprehensionIndex : String :=
  "Sobre tu nivel de comprensión de la clase de hoy, marca una opción:  "

/-- Header of the improvement-suggestion column. -/
def suggestionIndex : String :=
  "¿Cómo puedo ayudarte a comprender mejor el tema avanzado?"

/-- Header of the engagement self-rating column. -/
def engagementIndex : String :=
  "Pensando en tu participación y esfuerzo en la clase de hoy, ¿cómo te autoevaluarías? Marca una opción:"

/-- Header of the satisfaction-score column. -/
def scoreIndex : String :=
  "Mi satisfacción con la clase fue... (Califica la clase de hoy en un puntaje del 1 al 10, donde 1 es insatisfecho y 10 es muy satisfecho)"

/-- `DataService.requiredHeaders`. -/
def requiredHeaders : List String :=
  ["Timestamp", "Email Address", "Materia", "Paralelo",
   learningIndex, confusedIndex, questionIndex,
   comprehensionIndex, suggestionIndex, engagementIndex, scoreIndex]

/-- Characters admitted by the sheet-id capture group `[a-zA-Z0-9-_]`. -/
def isIdChar (c : Char) : Bool := c.isAlphanum || c == '-' || c == '_'

/-- The regex search `url.match(/\/d\/([a-zA-Z0-9-_]+)/)`: scan left to right
for `/d/` followed by at least one id character; on a failed match resume at
the next position, exactly as the regex engine does. -/
def findSheetId : List Char → Option (List Char)
  | '/' :: 'd' :: '/' :: tail =>
      let ds := tail.takeWhile isIdChar
      if ds.isEmpty then findSheetId ('d' :: '/' :: tail) else some ds
  | _ :: rest => findSheetId rest
  | [] => none

/-- Outcome of the Papa CSV parse (`results.errors`, `results.data`): each row
is an association list from column header to cell text.  The HTTP fetch of the
derived export URL is abstracted away — the parse outcome of whatever the fetch
returned is the input. -/
structure CsvParse where
  errors : List String
  rows : List (List (String × String))
deriving DecidableEq

/-- The error taxonomy of `DataService.loadDataFromSheet`, by throw site. -/
inductive LoadError where
  | emptyUrl
  | invalidUrl
  | parseFailed (msg : String)
  | emptyData
  | schemaMismatch
deriving DecidableEq

/-- The user-visible message of each import error (the `Error` message thrown
at the corresponding site in gemini.service.ts). -/
def LoadError.message : LoadError → String
  | .emptyUrl => "Por favor, introduce una URL válida."
  | .invalidUrl => "Formato de URL no válido. Por favor, usa la URL estándar de Google Sheet."
  | .parseFailed m => "No se pudo analizar el archivo CSV. " ++ m
  | .emptyData => "La hoja de cálculo está vacía o no tiene datos válidos."
  | .schemaMismatch => "La estructura de la hoja de cálculo no coincide con el formato esperado. Por favor, revisa los encabezados de las columnas."

/-- `{...d, Timestamp: new Date(d.Timestamp)}`: build a record from a CSV row;
`parseTs` models `new Date(string).getTime()` (`none` = invalid date, also for
a missing cell). -/
def rowToTicket (parseTs : String → Option Int) (row : List (String × String)) :
    TicketData :=
  { Timestamp := (List.lookup "Timestamp" row).bind parseTs
    emailAddress := List.lookup "Email Address" row
    Materia := (List.lookup "Materia" row).getD ""
    Paralelo := (List.lookup "Paralelo" row).getD ""
    learning := List.lookup learningIndex row
    confused := List.lookup confusedIndex row
    question := List.lookup questionIndex row
    comprehension := List.lookup comprehensionIndex row
    suggestion := List.lookup suggestionIndex row
    engagement := List.lookup engagementIndex row
    score := List.lookup scoreIndex row }

/-- `DataService.loadDataFromSheet` (gemini.service.ts, lines 67–118): URL
validation, then — over the parse outcome of the fetched CSV — parse-error,
empty-data and schema checks, then row conversion, dropping rows whose
`Materia` cell is falsy. -/
def loadDataFromSheet (parseTs : String → Option Int) (url : String)
    (csv : CsvParse) : Except LoadError (List TicketData) :=
  if url == "" then .error .emptyUrl
  else
    match findSheetId url.data with
    | none => .error .invalidUrl
    | some _ =>
        if csv.errors.isEmpty then
          if csv.rows.isEmpty then .error .emptyData
          else
            let headers := (csv.rows.headD []).map Prod.fst
            if requiredHeaders.all (fun h => headers.contains h) then
              .ok ((csv.rows.filter (fun row =>
                  match List.lookup "Materia" row with
                  | some v => !(v == "")
                  | none => false)).map (rowToTicket parseTs))
            else .error .schemaMismatch
        else .error (.parseFailed (csv.errors.headD ""))

/-- `loadData` (app.component.ts, lines 161–177): set the in-flight flags, run
the import, and either install the new record set and apply the pending filters,
or surface the error message and clear the record set. -/
def loadData (parseTs : String → Option Int) (s : AppState) (csv : CsvParse) :
    AppState :=
  let s1 := { s with isLoading := true, errorMessage := none, dataLoaded := false }
  match loadDataFromSheet parseTs s.sheetUrl csv with
  | .ok data =>
      let s2 := applyFilters { s1 with allData := data }
      { s2 with dataLoaded := true, isLoading := false }
  | .error e =>
      { s1 with errorMessage := some e.message, allData := [], isLoading := false }

/-- The four independent insight report kinds of `generateSummary`. -/
inductive SummaryKind where
  | learnings
  | confused
  | questions
  | suggestions
deriving DecidableEq

/-- The `dataIndex` column selected per report kind (as a field accessor). -/
def summaryField : SummaryKind → TicketData → Option String
  | .learnings => TicketData.learning
  | .confused => TicketData.confused
  | .questions => TicketData.question
  | .suggestions => TicketData.suggestion

/-- The fixed system prompt per report kind (app.component.ts, lines 226–247). -/
def summarySystemPrompt : SummaryKind → String
  | .learnings => "Eres un asistente de análisis educativo. Tu tarea es leer las respuestas de los estudiantes sobre su aprendizaje más importante de la clase y generar un resumen conciso y profesional, identificando los 3 a 5 temas o ideas principales mencionados. Formatea el resultado usando Markdown con una lista numerada de los puntos clave."
  | .confused => "Eres un asistente de análisis educativo. Tu tarea es leer las respuestas de los estudiantes sobre los puntos más confusos de la clase y generar un resumen conciso, identificando los 3 a 5 temas principales que causaron confusión. Prioriza las áreas de refuerzo más urgentes. Formatea el resultado usando Markdown con una lista numerada."
  | .questions => "Eres un asistente educativo. Tu tarea es leer las preguntas de los estudiantes para la siguiente clase y generar un resumen conciso, agrupando las 3 a 5 preguntas o temas más solicitados para abordar al inicio de la próxima sesión. Formatea el resultado usando Markdown con una lista numerada."
  | .suggestions => "Eres un analista de feedback. Tu tarea es leer las sugerencias de los estudiantes sobre cómo el docente puede ayudarlos a comprender mejor el tema y generar un resumen conciso de las 3 a 5 peticiones principales (ej: " ++ apostr ++ "más ejemplos prácticos" ++ apostr ++ ", " ++ apostr ++ "más tiempo de laboratorio" ++ apostr ++ "). Formatea el resultado usando Markdown con una lista numerada."

/-- Read the report signal a kind writes to. -/
def getSummarySignal (kind : SummaryKind) (s : AppState) : SummaryState :=
  match kind with
  | .learnings => s.learnings
  | .confused => s.confused
  | .questions => s.questions
  | .suggestions => s.suggestions

/-- Write the report signal a kind writes to. -/
def setSummarySignal (kind : SummaryKind) (s : AppState) (v : SummaryState) :
    AppState :=
  match kind with
  | .learnings => { s with learnings := v }
  | .confused => { s with confused := v }
  | .questions => { s with questions := v }
  | .suggestions => { s with suggestions := v }

/-- The response cleanup of `generateSummary` (app.component.ts, line 249):
`data.map(d => d[dataIndex]?.trim()).filter(text => text && text !== '.' &&
!['no','ninguna','ninguno','nada'].includes(text.toLowerCase()))`.  A missing
column (`undefined`) and the empty string are falsy, hence dropped. -/
def meaningfulResponses (field : TicketData → Option String)
    (data : List TicketData) : List String :=
  data.filterMap (fun d =>
    match (field d).map trimJS with
    | some text =>
        if text == "" || text == "."
            || (["no", "ninguna", "ninguno", "nada"].contains (toLowerJS text))
        then none else some text
    | none => none)

/-- A request issued to `GeminiService.generateContent`. -/
structure GeminiCall where
  userQuery : String
  systemPrompt : String
deriving DecidableEq

/-- The fixed content installed when no meaningful responses remain. -/
def noMeaningfulMsg : String :=
  "<p class=\"text-gray-500 font-semibold text-sm\">Los estudiantes no proporcionaron respuestas significativas en este filtro.</p>"

/-- `generateSummary` (app.component.ts, lines 220–257).  The returned
`Option GeminiCall` is the request handed to `callGemini` (`none` = the
external service was not invoked); the returned state reflects every signal
write performed synchronously (including the `loading: true` write that
`callGemini` performs when invoked). -/
def generateSummary (parseDate : String → Option Int) (endOfDay : Int → Int)
    (kind : SummaryKind) (s : AppState) : AppState × Option GeminiCall :=
  let data := filteredData parseDate endOfDay s
  if data.isEmpty then (s, none)
  else
    let responses := meaningfulResponses (summaryField kind) data
    if responses.isEmpty then
      (setSummarySignal kind s { loading := false, content := some noMeaningfulMsg },
        none)
    else
      let userQuery := "Contexto: Materia: "
        ++ (if s.selectedMateria == "" then "Todas" else s.selectedMateria)
        ++ ". Respuestas a analizar:\n\n" ++ String.intercalate "\n---\n" responses
      (setSummarySignal kind s { loading := true, content := none },
        some { userQuery := userQuery, systemPrompt := summarySystemPrompt kind })

/-- JS `stringOrNull || fallback` (the empty string is falsy). -/
def orElseJS (o : Option String) (fallback : String) : String :=
  match o with
  | some v => if v == "" then fallback else v
  | none => fallback

/-- The inline validation message of `generateLessonPlan`. -/
def requiredFieldsMsg : String := "Por favor, rellena todos los campos requeridos (*)."

/-- Fallback text when the confusion summary has not been generated. -/
def confusedFallback : String :=
  "No hay puntos confusos destacados por la IA (Genera el resumen de confusión si es necesario)"

/-- Fallback text when the questions summary has not been generated. -/
def questionsFallback : String :=
  "No hay preguntas pendientes destacadas por la IA (Genera el resumen de preguntas si es necesario)"

/-- `generateLessonPlan` (app.component.ts, lines 259–284): clear the modal
error, validate the five required fields (surfacing the fixed inline message
and stopping if any is blank), otherwise close the modal, build the prompts and
invoke the service on the `lessonPlan` signal. -/
def generateLessonPlan (s : AppState) : AppState × Option GeminiCall :=
  let s1 := { s with modalErrorMessage := none }
  let confusedText := orElseJS s.confused.content confusedFallback
  let questionsText := orElseJS s.questions.content questionsFallback
  let requiredFields := [s.modalNextTopic, s.modalNumStudents, s.modalClassDuration,
    s.modalMateriaOutcome, s.modalUnitOutcome]
  if requiredFields.any (fun f => f == "") then
    ({ s1 with modalErrorMessage := some requiredFieldsMsg }, none)
  else
    let s2 := { s1 with isModalVisible := false }
    let systemPrompt := "Eres un diseñador instruccional experto. Crea un plan de clase híbrido y estructurado para una clase de "
      ++ s.modalClassDuration
      ++ " minutos. El objetivo es: 1) Reforzar los " ++ apostr ++ "Puntos Confusos" ++ apostr
      ++ " y responder las " ++ apostr ++ "Preguntas Pendientes" ++ apostr
      ++ " de la clase anterior, y 2) Introducir el nuevo tema: \""
      ++ s.modalNextTopic
      ++ "\". El plan debe ser profesional y práctico. Estructura el resultado usando Markdown con estos 4 pasos principales, ajustando los tiempos para sumar "
      ++ s.modalClassDuration
      ++ " minutos: ### 1. Inicio y Revisión, ### 2. Desarrollo del Nuevo Tema, ### 3. Actividad de Aplicación y Preguntas, ### 4. Cierre y Próximos Pasos."
    let userQuery := "**Materia:** " ++ s.selectedMateria
      ++ ". **Estudiantes:** " ++ s.modalNumStudents
      ++ ".\n    **Nuevo Tema:** " ++ s.modalNextTopic
      ++ "\n    **Resultados de Aprendizaje:**\n    - Materia: " ++ s.modalMateriaOutcome
      ++ "\n    - Unidad: " ++ s.modalUnitOutcome
      ++ "\n    - Producto de la Clase (Opcional): "
      ++ (if s.modalClassProduct == "" then "Ninguno" else s.modalClassProduct)
      ++ "\n    **Feedback de Estudiantes a Abordar:**\n    1. Puntos Confusos: " ++ confusedText
      ++ "\n    2. Preguntas Pendientes: " ++ questionsText
      ++ "\n    **Instrucción Final:** Genera un plan de clase detallado en 4 pasos."
    ({ s2 with lessonPlan := { loading := true, content := none } },
      some { userQuery := userQuery, systemPrompt := systemPrompt })

/-- One flagged entry of the priority list. -/
structure PriorityStudent where
  name : String
  materia : String
  paralelo : String
  fecha : String
  razon : String
  badgeColor : String
deriving DecidableEq

/-- The comprehension answer that flags a student (`comprehensionPriorityValue`,
app.component.ts, line 332). -/
def comprehensionPriorityValue : String :=
  "No entendí casi nada. - Me siento bastante perdido/a."

/-- The `comprehensionLabels` table of `priorityStudents` (lines 333–337). -/
def comprehensionLabels (s : String) : Option String :=
  if s == "¡Entendido! - Lo domino y podría explicarlo." then some "Dominado"
  else if s == "Más o menos. - Entendí la idea general, pero tengo dudas." then
    some "Dudas/Idea General"
  else if s == "No entendí casi nada. - Me siento bastante perdido/a." then
    some "Perdido/a"
  else none

/-- `!isNaN(score) && score <= 7` with `score = parseInt(d[scoreIndex])`. -/
def lowScoreOf (d : TicketData) : Bool :=
  match parsedScore d with
  | some n => decide (n ≤ 7)
  | none => false

/-- `d[comprehensionIndex]?.trim() === comprehensionPriorityValue`. -/
def lowComprehensionOf (d : TicketData) : Bool :=
  (d.comprehension.map trimJS) == some comprehensionPriorityValue

/-- The `${score}` interpolation inside the reason strings. -/
def scoreDisplay (d : TicketData) : String :=
  match parsedScore d with
  | some n => toString n
  | none => "NaN"

/-- `d['Email Address']?.split('@')[0].replace(/\./g, ' ').toUpperCase() || 'Desconocido'`. -/
def emailName (email : Option String) : String :=
  match email with
  | none => "Desconocido"
  | some e =>
      let namePart : String :=
        toUpperJS ⟨(e.data.takeWhile (fun c => !(c == '@'))).map
          (fun c => if c == '.' then ' ' else c)⟩
      if namePart == "" then "Desconocido" else namePart

/-- The `.map` body of `priorityStudents` (app.component.ts, lines 344–366). -/
def mkPriorityStudent (fmtDate : Option Int → String) (d : TicketData) :
    PriorityStudent :=
  let lowScore := lowScoreOf d
  let lowComprehension := lowComprehensionOf d
  let razon :=
    if lowComprehension && lowScore then
      "Comprensión Baja y Satisfacción Baja (" ++ scoreDisplay d ++ "/10)"
    else if lowComprehension then
      "Comprensión Baja: "
        ++ (((d.comprehension.map trimJS).bind comprehensionLabels).getD "N/A")
    else if lowScore then
      "Satisfacción Baja (" ++ scoreDisplay d ++ "/10)"
    else ""
  { name := emailName d.emailAddress
    materia := d.Materia
    paralelo := d.Paralelo
    fecha := fmtDate d.Timestamp
    razon := razon
    badgeColor :=
      if lowComprehension && lowScore then "bg-red-700"
      else if lowComprehension then "bg-red-500"
      else "bg-yellow-600" }

/-- `priorityStudents` (app.component.ts, lines 331–367), over the filtered
set it reads; `fmtDate` models `Date.prototype.toLocaleDateString('es-ES')`. -/
def priorityStudents (fmtDate : Option Int → String) (data : List TicketData) :
    List PriorityStudent :=
  (data.filter (fun d => lowScoreOf d || lowComprehensionOf d)).map
    (mkPriorityStudent fmtDate)

/-- Severity rank of a badge tag: both flags, comprehension-only, score-only. -/
def severityRank (badge : String) : Nat :=
  if badge == "bg-red-700" then 3
  else if badge == "bg-red-500" then 2
  else if badge == "bg-yellow-600" then 1
  else 0

/-- Score 5 with the highest comprehension answer: score-only flag. -/
def rowScoreOnly : TicketData :=
  { baseTicket with score := some "5", comprehension := some highCompAnswer }

/-- Score 9 with the lowest comprehension answer: comprehension-only flag. -/
def rowCompOnly : TicketData :=
  { baseTicket with score := some "9", comprehension := some lowCompAnswer }

/-- Score 5 with the lowest comprehension answer: both flags. -/
def rowBoth : TicketData :=
  { baseTicket with score := some "5", comprehension := some lowCompAnswer }

/-- A row answering "no" on every free-text question. -/
def negRowNo : TicketData :=
  { baseTicket with
    learning := some "no", confused := some "no"
    question := some "no", suggestion := some "no" }

/-- A row answering "." on every free-text question. -/
def negRowDot : TicketData :=
  { baseTicket with
    learning := some ".", confused := some "."
    question := some ".", suggestion := some "." }

/-- A row answering "Nada" on every free-text question. -/
def negRowNada : TicketData :=
  { baseTicket with
    learning := some "Nada", confused := some "Nada"
    question := some "Nada", suggestion := some "Nada" }

/-- Three rows answering "no", ".", "Nada" on every free-text question. -/
def negAnswerState : AppState :=
  { baseState with allData := [negRowNo, negRowDot, negRowNada] }

/-- A CSV parse outcome whose single row misses the required score column. -/
def csvMissingScore : CsvParse :=
  { errors := []
    rows := [[("Timestamp", "2024-05-01"), ("Email Address", "ana.perez@x.com"),
      ("Materia", "Matemática"), ("Paralelo", "A"), (learningIndex, "Todo"),
      (confusedIndex, "Nada"), (questionIndex, "Ninguna"),
      (comprehensionIndex, "¡Entendido! - Lo domino y podría explicarlo."),
      (suggestionIndex, "Nada"), (engagementIndex, "Muy Comprometido/a: Me esforcé al máximo.")]] }



/-- A state holding one record whose pending import URL lacks the `/d/<id>`
sharing-link shape. -/
def invalidUrlState : AppState :=
  { baseState with sheetUrl := "https://example.com/nope", allData := [baseTicket] }

/-- A state holding one record whose pending import URL is a well-formed
sharing link. -/
def schemaState : AppState :=
  { baseState with
    sheetUrl := "https://docs.google.com/spreadsheets/d/abc123/edit?gid=0"
    allData := [baseTicket] }

/-- Modal inputs all filled except the next topic. -/
def planStateMissingTopic : AppState :=
  { baseState with
    modalNumStudents := "25", modalClassDuration := "60"
    modalMateriaOutcome := "Resolver ecuaciones", modalUnitOutcome := "Factorizar" }

/-- Modal inputs all filled except the class duration. -/
def planStateMissingDuration : AppState :=
  { baseState with
    modalNextTopic := "Fracciones", modalNumStudents := "25"
    modalMateriaOutcome := "Resolver ecuaciones", modalUnitOutcome := "Factorizar" }

/-- C1: for every non-empty record list, filtering with the all-empty applied
selection (start date, end date, category and subgroup all unset) returns the
record list unchanged, in order, for every date-parsing interpretation. -/
theorem C1_empty_selection_identity (parseDate : String → Option Int)
    (endOfDay : Int → Int) (s : AppState)
    (hs : s.appliedStartDate = "") (he : s.appliedEndDate = "")
    (hm : s.appliedSelectedMateria = "") (hp : s.appliedSelectedParalelo = "")
    (hne : s.allData ≠ []) :
    filteredData parseDate endOfDay s = s.allData := by
  unfold filteredData
  rw [hs, he, hm, hp]
  simp [List.isEmpty_iff, hne]

/-- Witness for C1 at a concrete one-row state. -/
theorem C1_empty_selection_identity_witness :
    filteredData (fun _ => none) id { baseState with allData := [baseTicket] }
      = [baseTicket] :=
  C1_empty_selection_identity (fun _ => none) id
    { baseState with allData := [baseTicket] } rfl rfl rfl rfl (by simp)

/-- Filtering the in-range guard through `filterMap` equals dropping the
unparsed entries and then filtering by the range predicate. -/
theorem filterMap_inRange_eq_filter (l : List (Option Int)) :
    l.filterMap (fun o =>
      match o with
      | some n => if 1 ≤ n ∧ n ≤ 10 then some n else none
      | none => none)
      = l.reduceOption.filter (fun n => decide (1 ≤ n ∧ n ≤ 10)) := by
  induction l with
  | nil => rfl
  | cons o tl ih =>
      cases o with
      | none => simpa [List.reduceOption] using ih
      | some n =>
          by_cases h : 1 ≤ n ∧ n ≤ 10
          · simp [List.reduceOption, List.filter_cons, h, ih]
          · simp [List.reduceOption, List.filter_cons, h, ih]

/-- C3: the mean numeric score is computed over exactly the score fields that
parse as integers in `[1, 10]`, averaged and rounded to two decimals; on the
raw scores `[0, 1, 10, 11, 7]` the included set is exactly `[1, 10, 7]` and
the mean displays as `6.00`; when nothing parses into `[1, 10]` the result is
the `N/A` marker. -/
theorem C3_average_score_spec :
    (∀ data : List TicketData,
        includedScores data
          = ((data.map parsedScore).reduceOption).filter
              (fun n => decide (1 ≤ n ∧ n ≤ 10)))
    ∧ (∀ data : List TicketData, includedScores data ≠ [] →
        averageScore data
          = toFixed2 (((includedScores data).sum : ℚ)
              / ((includedScores data).length : ℚ)))
    ∧ includedScores scoreExample = [1, 10, 7]
    ∧ averageScore scoreExample = "6.00"
    ∧ (∀ data : List TicketData, includedScores data = [] →
        averageScore data = "N/A") := by
  refine ⟨fun data => filterMap_inRange_eq_filter _, ?_, by decide, ?_, ?_⟩
  · intro data h
    simp [averageScore, averageScoreQ, h]
  · have h : includedScores scoreExample = [1, 10, 7] := by decide
    have hq : averageScoreQ scoreExample = some 6 := by
      simp [averageScoreQ, h]; norm_num
    have h2 : round ((6 : ℚ) * 100) = 600 := by rw [round_eq]; norm_num
    simp [averageScore, hq, toFixed2, h2]
    rfl
  · intro data h
    simp [averageScore, averageScoreQ, h]

/-- Witness for C3 at concrete inputs. -/
theorem C3_average_score_spec_witness :
    averageScore [] = "N/A" ∧ averageScore scoreExample = "6.00" :=
  ⟨C3_average_score_spec.2.2.2.2 [] rfl, C3_average_score_spec.2.2.2.1⟩

/-- C4: the comprehension level maps each mapped answer to a weight in
{low: 1, medium: 2, high: 3}, excludes unmapped or missing answers, averages
the weights and buckets the average at the thresholds 2.7 / 2.0 / 1.0;
weights `[3, 3, 2]` give the "good" label, an average of exactly 2.7 gives
"excellent", exactly 2.0 gives "good", exactly 1.0 gives "medium", and the
result is `N/A` when no answer maps. -/
theorem C4_average_comprehension_spec :
    (comprehensionMap highCompAnswer = some 3
      ∧ comprehensionMap medCompAnswer = some 2
      ∧ comprehensionMap lowCompAnswer = some 1
      ∧ (∀ s w, comprehensionMap s = some w → w = 1 ∨ w = 2 ∨ w = 3))
    ∧ (∀ data : List TicketData, comprehensionWeights data ≠ [] →
        ((27/10 : ℚ) ≤ ((comprehensionWeights data).sum : ℚ)
            / ((comprehensionWeights data).length : ℚ) →
          averageComprehension data = "¡Excelente Comprensión!")
        ∧ ((2 : ℚ) ≤ ((comprehensionWeights data).sum : ℚ)
            / ((comprehensionWeights data).length : ℚ) →
          ((comprehensionWeights data).sum : ℚ)
            / ((comprehensionWeights data).length : ℚ) < 27/10 →
          averageComprehension data = "Buena (Pocas Dudas)")
        ∧ ((1 : ℚ) ≤ ((comprehensionWeights data).sum : ℚ)
            / ((comprehensionWeights data).length : ℚ) →
          ((comprehensionWeights data).sum : ℚ)
            / ((comprehensionWeights data).length : ℚ) < 2 →
          averageComprehension data = "Media (Necesita Revisión)")
        ∧ (((comprehensionWeights data).sum : ℚ)
            / ((comprehensionWeights data).length : ℚ) < 1 →
          averageComprehension data = "Baja (Refuerzo Urgente)"))
    ∧ averageComprehension compExampleGood = "Buena (Pocas Dudas)"
    ∧ averageComprehension compExample27 = "¡Excelente Comprensión!"
    ∧ averageComprehension compExample20 = "Buena (Pocas Dudas)"
    ∧ averageComprehension compExample10 = "Media (Necesita Revisión)"
    ∧ (∀ data : List TicketData, comprehensionWeights data = [] →
        averageComprehension data = "N/A") := by
  refine ⟨⟨by decide, by decide, by decide, ?_⟩, ?_, ?_, ?_, ?_, ?_, ?_⟩
  · intro s w h
    unfold comprehensionMap at h
    split_ifs at h <;> simp_all
  · intro data hne
    have he : (comprehensionWeights data).isEmpty = false := by
      simpa [List.isEmpty_iff] using hne
    refine ⟨?_, ?_, ?_, ?_⟩
    · intro h1
      simp only [averageComprehension, he, Bool.false_eq_true, if_false]
      rw [if_pos h1]
    · intro h1 h2
      simp only [averageComprehension, he, Bool.false_eq_true, if_false]
      rw [if_neg (not_le.mpr h2), if_pos h1]
    · intro h1 h2
      simp only [averageComprehension, he, Bool.false_eq_true, if_false]
      rw [if_neg (not_le.mpr (h2.trans (by norm_num))),
        if_neg (not_le.mpr h2), if_pos h1]
    · intro h1
      simp only [averageComprehension, he, Bool.false_eq_true, if_false]
      rw [if_neg (not_le.mpr (h1.trans (by norm_num))),
        if_neg (not_le.mpr (h1.trans (by norm_num))),
        if_neg (not_le.mpr h1)]
  · have hw : comprehensionWeights compExampleGood = [3, 3, 2] := by decide
    simp [averageComprehension, hw]
    norm_num
  · have hw : comprehensionWeights compExample27
        = [3, 3, 3, 3, 3, 3, 3, 2, 2, 2] := by decide
    simp [averageComprehension, hw]
  · have hw : comprehensionWeights compExample20 = [2] := by decide
    simp [averageComprehension, hw]
    norm_num
  · have hw : comprehensionWeights compExample10 = [1] := by decide
    simp [averageComprehension, hw]
    norm_num
  · intro data h
    simp [averageComprehension, h]

/-- Witness for C4 at concrete inputs. -/
theorem C4_average_comprehension_spec_witness :
    averageComprehension [] = "N/A"
      ∧ averageComprehension compExampleGood = "Buena (Pocas Dudas)" :=
  ⟨C4_average_comprehension_spec.2.2.2.2.2.2 [] rfl,
    C4_average_comprehension_spec.2.2.1⟩

/-- Every score kept by the range filter lies in `[1, 10]`. -/
theorem includedScores_mem_bounds (data : List TicketData) :
    ∀ n ∈ includedScores data, 1 ≤ n ∧ n ≤ 10 := by
  intro n hn
  simp only [includedScores, List.mem_filterMap] at hn
  obtain ⟨o, _, heq⟩ := hn
  cases o with
  | none => simp at heq
  | some m =>
      by_cases h : 1 ≤ m ∧ m ≤ 10
      · simp [h] at heq
        exact heq ▸ h
      · simp [h] at heq

/-- A list of integers, each in `[1, 10]`, has its sum between its length and
ten times its length. -/
theorem sum_bounds_of_mem (l : List Int) (h : ∀ x ∈ l, 1 ≤ x ∧ x ≤ 10) :
    (l.length : Int) ≤ l.sum ∧ l.sum ≤ 10 * l.length := by
  induction l with
  | nil => simp
  | cons a tl ih =>
      have ha := h a (by simp)
      have htl := ih (fun x hx => h x (by simp [hx]))
      simp only [List.sum_cons, List.length_cons]
      push_cast
      omega

/-- C10: whenever the mean numeric score is reported (not the `N/A` marker),
its value lies between 1 and 10 inclusive, and the displayed string is its
two-decimal rendering. -/
theorem C10_average_score_range (data : List TicketData) (q : ℚ)
    (h : averageScoreQ data = some q) :
    1 ≤ q ∧ q ≤ 10 ∧ averageScore data = toFixed2 q := by
  have he : (includedScores data).isEmpty = false := by
    by_contra hc
    simp only [Bool.not_eq_false] at hc
    simp [averageScoreQ, hc] at h
  have hval : ((includedScores data).sum : ℚ)
      / ((includedScores data).length : ℚ) = q := by
    simpa [averageScoreQ, he] using h
  have hlen : (0 : ℚ) < ((includedScores data).length : ℚ) := by
    have hne : includedScores data ≠ [] := by
      simpa [List.isEmpty_iff] using he
    exact_mod_cast List.length_pos.mpr hne
  have hs := sum_bounds_of_mem (includedScores data) (includedScores_mem_bounds data)
  refine ⟨?_, ?_, ?_⟩
  · rw [← hval, le_div_iff₀ hlen, one_mul]
    exact_mod_cast hs.1
  · rw [← hval, div_le_iff₀ hlen]
    exact_mod_cast hs.2
  · simp [averageScore, h]

/-- Witness for C10 at a concrete one-row input with score 10. -/
theorem C10_average_score_range_witness :
    1 ≤ (10 : ℚ) ∧ (10 : ℚ) ≤ 10
      ∧ averageScore [mkScoreRow "10"] = toFixed2 10 :=
  C10_average_score_range [mkScoreRow "10"] 10 (by
    have h : includedScores [mkScoreRow "10"] = [10] := by decide
    simp [averageScoreQ, h])

/-- C7: applying the pending filter selection resets all six report states —
the four insight summaries, the lesson plan and the student guide — to the
not-requested state (no content, not loading). -/
theorem C7_applyFilters_resets_reports (s : AppState) :
    (applyFilters s).learnings = { loading := false, content := none }
    ∧ (applyFilters s).confused = { loading := false, content := none }
    ∧ (applyFilters s).questions = { loading := false, content := none }
    ∧ (applyFilters s).suggestions = { loading := false, content := none }
    ∧ (applyFilters s).lessonPlan = { loading := false, content := none }
    ∧ (applyFilters s).studentGuide = { loading := false, content := none } :=
  ⟨rfl, rfl, rfl, rfl, rfl, rfl⟩

/-- C9: when the filtered record set is empty, requesting any insight report
returns without changing any state and without calling the external service. -/
theorem C9_empty_filtered_noop (parseDate : String → Option Int)
    (endOfDay : Int → Int) (kind : SummaryKind) (s : AppState)
    (h : filteredData parseDate endOfDay s = []) :
    generateSummary parseDate endOfDay kind s = (s, none) := by
  simp [generateSummary, h]

/-- Witness for C9 at a concrete state with no loaded records. -/
theorem C9_empty_filtered_noop_witness :
    generateSummary (fun _ => none) id SummaryKind.learnings baseState
      = (baseState, none) :=
  C9_empty_filtered_noop (fun _ => none) id SummaryKind.learnings baseState rfl

/-- C6: for every insight report kind, when no meaningful responses remain
after the cleanup (blanks, a bare period, and the negative tokens dropped,
case-insensitively), the report settles to the fixed "no meaningful responses"
content without invoking the external generation service. -/
theorem C6_no_meaningful_short_circuit (parseDate : String → Option Int)
    (endOfDay : Int → Int) (kind : SummaryKind) (s : AppState)
    (hne : filteredData parseDate endOfDay s ≠ [])
    (hresp : meaningfulResponses (summaryField kind)
        (filteredData parseDate endOfDay s) = []) :
    generateSummary parseDate endOfDay kind s
      = (setSummarySignal kind s
          { loading := false, content := some noMeaningfulMsg }, none) := by
  have h1 : (filteredData parseDate endOfDay s).isEmpty = false := by
    simpa [List.isEmpty_iff] using hne
  simp [generateSummary, h1, hresp]

/-- Witness for C6: three rows answering "no", ".", "Nada" short-circuit every
kind; checked here for the learnings kind. -/
theorem C6_no_meaningful_short_circuit_witness :
    generateSummary (fun _ => none) id SummaryKind.learnings negAnswerState
      = (setSummarySignal SummaryKind.learnings negAnswerState
          { loading := false, content := some noMeaningfulMsg }, none) :=
  C6_no_meaningful_short_circuit (fun _ => none) id SummaryKind.learnings
    negAnswerState (by decide) (by decide)

/-- C2 (amended): an import that fails — `InvalidUrl` because the URL lacks
the `/d/<id>` shape, or `SchemaMismatch` because a required header is missing —
surfaces that error's message and CLEARS the record set (sets it to empty),
with loading and loaded flags reset. -/
theorem C2_failed_import_clears_data (parseTs : String → Option Int)
    (s : AppState) (csv : CsvParse) (e : LoadError)
    (h : loadDataFromSheet parseTs s.sheetUrl csv = .error e) :
    loadData parseTs s csv
      = { s with
          isLoading := false, errorMessage := some e.message
          dataLoaded := false, allData := [] } := by
  simp [loadData, h]

/-- Witness for C2 (amended): a schema-mismatch import at a concrete state
holding one record. -/
theorem C2_failed_import_clears_data_witness :
    loadData (fun _ => none) schemaState csvMissingScore
      = { schemaState with
          isLoading := false
          errorMessage := some LoadError.schemaMismatch.message
          dataLoaded := false, allData := [] } :=
  C2_failed_import_clears_data (fun _ => none) schemaState csvMissingScore
    LoadError.schemaMismatch (by rfl)

/-- Counterexample to C2 as stated: a failing import does NOT leave the
existing record set unchanged — at a state holding one record and an invalid
URL, the rejection wipes the record set to empty while surfacing the
`InvalidUrl` message. -/
theorem C2_counterexample :
    (loadData (fun _ => none) invalidUrlState csvMissingScore).allData
        ≠ invalidUrlState.allData
    ∧ (loadData (fun _ => none) invalidUrlState csvMissingScore).errorMessage
        = some LoadError.invalidUrl.message := by
  exact ⟨by decide, by decide⟩

/-- C8 (amended): generating the session plan fails with the fixed inline
validation message whenever any of the five mandatory inputs is blank; the
external generation service is not invoked and no other state field changes —
in particular the plan report state is unchanged. -/
theorem C8_validation_blocks_plan (s : AppState)
    (h : s.modalNextTopic = "" ∨ s.modalNumStudents = ""
      ∨ s.modalClassDuration = "" ∨ s.modalMateriaOutcome = ""
      ∨ s.modalUnitOutcome = "") :
    generateLessonPlan s
      = ({ s with modalErrorMessage := some requiredFieldsMsg }, none) := by
  have hany : ([s.modalNextTopic, s.modalNumStudents, s.modalClassDuration,
      s.modalMateriaOutcome, s.modalUnitOutcome].any (fun f => f == "")) = true := by
    rcases h with h | h | h | h | h <;> simp [h]
  simp [generateLessonPlan, hany]

/-- Witness for C8 (amended) at the blank state. -/
theorem C8_validation_blocks_plan_witness :
    generateLessonPlan baseState
      = ({ baseState with modalErrorMessage := some requiredFieldsMsg }, none) :=
  C8_validation_blocks_plan baseState (Or.inl rfl)

/-- Counterexample to C8 as stated: the validation error does not list WHICH
requirement is missing — the message is one fixed string, identical whether
the next topic or the class duration is the blank field, so it carries no
information about the missing requirement. -/
theorem C8_counterexample :
    (generateLessonPlan planStateMissingTopic).1.modalErrorMessage
        = some requiredFieldsMsg
    ∧ (generateLessonPlan planStateMissingDuration).1.modalErrorMessage
        = some requiredFieldsMsg
    ∧ (generateLessonPlan planStateMissingTopic).1.modalErrorMessage
        = (generateLessonPlan planStateMissingDuration).1.modalErrorMessage := by
  exact ⟨by decide, by decide, by decide⟩

/-- A nonempty string stays nonempty under right-append. -/
theorem string_append_ne_empty (s t : String) (h : s ≠ "") : s ++ t ≠ "" := by
  cases s with
  | mk a =>
  cases t with
  | mk b =>
  intro hc
  apply h
  have hab : a ++ b = [] := congrArg String.data hc
  have ha : a = [] := (List.append_eq_nil.mp hab).1
  exact congrArg String.mk ha

/-- C5: the priority subset keeps exactly the records whose score parses to an
integer at most 7 or whose trimmed comprehension answer equals the lowest
level; every kept entry carries a non-empty reason; the three-level severity
tag ranks both-flags (`bg-red-700`) above comprehension-only (`bg-red-500`)
above score-only (`bg-yellow-600`); score 5 with highest comprehension is
flagged score-only, score 9 with lowest comprehension is flagged
comprehension-only, and score 5 with lowest comprehension gets the top tag. -/
theorem C5_priority_students_spec (fmtDate : Option Int → String) :
    (∀ data : List TicketData,
        priorityStudents fmtDate data
          = (data.filter (fun d => lowScoreOf d || lowComprehensionOf d)).map
              (mkPriorityStudent fmtDate))
    ∧ (∀ d : TicketData, (lowScoreOf d || lowComprehensionOf d) = true
        ↔ ((∃ n, parsedScore d = some n ∧ n ≤ 7)
            ∨ d.comprehension.map trimJS = some comprehensionPriorityValue))
    ∧ (∀ data : List TicketData, ∀ p ∈ priorityStudents fmtDate data, p.razon ≠ "")
    ∧ (priorityStudents fmtDate [rowScoreOnly, rowCompOnly, rowBoth]).map
        PriorityStudent.badgeColor = ["bg-yellow-600", "bg-red-500", "bg-red-700"]
    ∧ (priorityStudents fmtDate [rowScoreOnly, rowCompOnly, rowBoth]).map
        PriorityStudent.razon
        = ["Satisfacción Baja (5/10)", "Comprensión Baja: Perdido/a",
            "Comprensión Baja y Satisfacción Baja (5/10)"]
    ∧ severityRank "bg-red-700" = 3 ∧ severityRank "bg-red-500" = 2
    ∧ severityRank "bg-yellow-600" = 1 := by
  refine ⟨fun data => rfl, ?_, ?_, by rfl, by rfl, by decide, by decide, by decide⟩
  · intro d
    simp only [Bool.or_eq_true]
    constructor
    · rintro (hs | hcmp)
      · left
        unfold lowScoreOf at hs
        cases hsd : parsedScore d with
        | none => rw [hsd] at hs; cases hs
        | some n =>
            rw [hsd] at hs
            exact ⟨n, rfl, of_decide_eq_true hs⟩
      · right
        unfold lowComprehensionOf at hcmp
        exact eq_of_beq hcmp
    · rintro (⟨n, hn, hle⟩ | hcmp)
      · left
        unfold lowScoreOf
        rw [hn]
        exact decide_eq_true hle
      · right
        unfold lowComprehensionOf
        rw [hcmp]
        exact beq_self_eq_true _
  · intro data p hp
    simp only [priorityStudents, List.mem_map, List.mem_filter] at hp
    obtain ⟨d, ⟨_, hflag⟩, rfl⟩ := hp
    cases hc : lowComprehensionOf d <;> cases hs : lowScoreOf d
    · rw [hc, hs] at hflag
      cases hflag
    · simp only [mkPriorityStudent, hc, hs, Bool.false_and, Bool.and_false,
        if_false, if_true, Bool.false_eq_true]
      exact string_append_ne_empty _ _ (string_append_ne_empty _ _ (by decide))
    · simp only [mkPriorityStudent, hc, hs, Bool.true_and, Bool.and_false,
        if_false, if_true, Bool.false_eq_true]
      exact string_append_ne_empty _ _ (by decide)
    · simp only [mkPriorityStudent, hc, hs, Bool.true_and, Bool.and_true,
        if_true]
      exact string_append_ne_empty _ _ (string_append_ne_empty _ _ (by decide))

/-- Witness for C5: the both-flags row yields a non-empty reason. -/
theorem C5_priority_students_spec_witness :
    (mkPriorityStudent (fun _ => "") rowBoth).razon ≠ "" :=
  (C5_priority_students_spec (fun _ => "")).2.2.1 [rowBoth]
    (mkPriorityStudent (fun _ => "") rowBoth) (by decide)
